import Mathlib

/-!
Verification of the WateringSystem irrigation controller.

Shallow embedding of the core components:
* the Modbus CRC-16 engine (`SP3485ModbusClient::calculateCRC`),
* the Modbus transport response path (`SP3485ModbusClient::readHoldingRegisters`),
* the soil-sensor adapter (`ModbusSoilSensor::read` / `calibrateMoisture`),
* the watering controller decision logic (`WateringController::processReadings`,
  `WateringController::update`, configuration setters).

Machine integers are modelled as `Nat` (all operations used stay below their
bit-width, which is proved where needed); `float` values that are only
compared, clamped or combined by exact division are modelled as `ℚ`;
wall-clock `millis()` is an explicit `now : Nat` parameter (milliseconds);
fallible serial reception is an explicit list of the bytes that arrived
within the timeout window.
-/

namespace WateringSystem

/-! ### CRC engine: `SP3485ModbusClient::calculateCRC` -/

/-- One inner iteration of the CRC loop, exactly as the source writes it:
if the low bit is set, shift right and XOR `0xA001`, else just shift right. -/
def crcRound (crc : Nat) : Nat :=
  if crc &&& 1 ≠ 0 then (crc >>> 1) ^^^ 0xA001 else crc >>> 1

/-- Processing of one input byte: XOR the byte into the running value, then
run eight inner iterations (`for (int i = 8; i != 0; i--)`). -/
def crcByteStep (crc b : Nat) : Nat :=
  crcRound^[8] (crc ^^^ b)

/-- The source CRC: start value `0xFFFF`, fold `crcByteStep` over the buffer.
The C function takes `(buffer, length)`; the list models `buffer[0..length)`. -/
def calculateCRC (buf : List Nat) : Nat :=
  buf.foldl crcByteStep 0xFFFF

/-- Modelled from the spec wording of the canonical Modbus CRC-16 reference:
for each bit, remember the shifted-out bit (`crc % 2`), shift right one
position (`crc / 2`), and XOR `0xA001` into the value when that bit was 1. -/
def specCrcRound (crc : Nat) : Nat :=
  let bit := crc % 2
  let shifted := crc / 2
  if bit = 1 then shifted ^^^ 0xA001 else shifted

/-- Modelled from the spec: canonical Modbus CRC-16 over a byte sequence:
start `0xFFFF`; per byte, XOR the byte into the running value (the byte is
below 256, so this is an XOR into the low byte), then eight reference
bit-iterations. -/
def modbusCRC16Spec (buf : List Nat) : Nat :=
  buf.foldl (fun crc b => specCrcRound^[8] (crc ^^^ b)) 0xFFFF

/-! ### Modbus transport: `SP3485ModbusClient::readHoldingRegisters`

The transport session state carries exactly the fields of the C++ object
that the response path reads or writes.  The serial exchange is modelled by
passing in the list `rx` of bytes that arrived before the timeout; the
receive loop reads at most `expectedLength + 2` of them.  `serialPresent`
models whether the constructor received a non-null `HardwareSerial*`. -/

structure MbState where
  initialized : Bool
  lastError : Nat
  successCount : Nat
  errorCount : Nat
deriving DecidableEq, Repr

/-- Model of `SP3485ModbusClient::initialize`: no-op success when already
initialized; error 1 when the serial port pointer is null; otherwise
configure the direction pin (hardware effect, no model state), flush stale
input, and mark initialized with a cleared error. -/
def mbInitialize (serialPresent : Bool) (s : MbState) : MbState × Bool :=
  if s.initialized then (s, true)
  else if serialPresent = false then ({s with lastError := 1}, false)
  else ({s with initialized := true, lastError := 0}, true)

/-- Model of the resynchronisation scan in `readHoldingRegisters`:
`for (int i = 0; i < min(3, bytesRead - 1); i++)` looking for the first
offset where `raw[i] == deviceAddress && raw[i+1] == 0x03`.  The loop body
is unrolled for `i = 0, 1, 2`; the guard keeps `i + 1` inside the received
bytes. -/
def findOffset (raw : List Nat) (devAddr bytesRead : Nat) : Option Nat :=
  if 0 < min 3 (bytesRead - 1) ∧ raw.getD 0 0 = devAddr ∧ raw.getD 1 0 = 3 then some 0
  else if 1 < min 3 (bytesRead - 1) ∧ raw.getD 1 0 = devAddr ∧ raw.getD 2 0 = 3 then some 1
  else if 2 < min 3 (bytesRead - 1) ∧ raw.getD 2 0 = devAddr ∧ raw.getD 3 0 = 3 then some 2
  else none

/-- Model of the success-path register decode: for each `i < count`,
`buffer[i] = response[3 + i*2] << 8 | response[4 + i*2]`. -/
def decodeRegs (resp : List Nat) (count : Nat) : List Nat :=
  (List.range count).map fun i => (resp.getD (3 + i * 2) 0) <<< 8 ||| resp.getD (4 + i * 2) 0

/-- Modelled from the spec wording: `count` big-endian u16 registers, the
`i`-th being `256 * data[2i] + data[2i+1]` over the data section of the
frame. -/
def bigEndianRegs (data : List Nat) (count : Nat) : List Nat :=
  (List.range count).map fun i => 2 ^ 8 * data.getD (i * 2) 0 + data.getD (i * 2 + 1) 0

/-- Result of one `readHoldingRegisters` call: the returned `bool`, the
session state afterwards, and the contents of the caller's output buffer
afterwards (equal to the input buffer whenever the call fails). -/
structure MbResult where
  ok : Bool
  state : MbState
  buffer : List Nat
deriving DecidableEq, Repr

/-- Model of `SP3485ModbusClient::readHoldingRegisters`.  The request build,
direction switching and flush have no effect on the modelled state; the
response handling is translated check by check.  `rx` is the byte stream
available on the serial input within the timeout window; the receive loop
accumulates at most `expectedLength + 2` of its bytes, in order.  `buffer`
is the caller's output buffer (assumed non-null). -/
def readHoldingRegisters (serialPresent : Bool) (s : MbState)
    (devAddr count : Nat) (rx : List Nat) (buffer : List Nat) : MbResult :=
  let si := if s.initialized then (s, true) else mbInitialize serialPresent s
  let s := si.1
  if si.2 = false then
    ⟨false, {s with errorCount := s.errorCount + 1}, buffer⟩
  else if 125 < count then
    ⟨false, {s with lastError := 2, errorCount := s.errorCount + 1}, buffer⟩
  else
    let expectedLength := 5 + count * 2
    let bytesRead := min (expectedLength + 2) rx.length
    let raw := rx.take (expectedLength + 2)
    match findOffset raw devAddr bytesRead with
    | none =>
      ⟨false, {s with lastError := 4, errorCount := s.errorCount + 1}, buffer⟩
    | some k =>
      let bytes := bytesRead - k
      let resp := raw.drop k
      if bytes < expectedLength then
        ⟨false, {s with lastError := 3, errorCount := s.errorCount + 1}, buffer⟩
      else if resp.getD 0 0 ≠ devAddr then
        ⟨false, {s with lastError := 4, errorCount := s.errorCount + 1}, buffer⟩
      else if resp.getD 1 0 ≠ 3 then
        if resp.getD 1 0 = 0x83 then
          ⟨false, {s with lastError := 100 + resp.getD 2 0, errorCount := s.errorCount + 1}, buffer⟩
        else
          ⟨false, {s with lastError := 5, errorCount := s.errorCount + 1}, buffer⟩
      else if resp.getD 2 0 ≠ count * 2 then
        ⟨false, {s with lastError := 6, errorCount := s.errorCount + 1}, buffer⟩
      else
        let responseCRC := (resp.getD (bytes - 1) 0) <<< 8 ||| resp.getD (bytes - 2) 0
        let calculatedCRC := calculateCRC (resp.take (bytes - 2))
        if responseCRC ≠ calculatedCRC then
          ⟨false, {s with lastError := 7, errorCount := s.errorCount + 1}, buffer⟩
        else
          ⟨true, {s with lastError := 0, successCount := s.successCount + 1},
            decodeRegs resp count⟩

/-! ### Soil sensor adapter: `ModbusSoilSensor`

The adapter is modelled for an already-initialized sensor (the
initialization path only performs hardware probes and sets `initialized`).
A transport call is modelled by its outcome: `none` for a failed
`readHoldingRegisters`, `some regs` for a successful one delivering the
register block.  The constructor's default valid ranges are used (the
claims never call `setValidRange`). -/

structure SoilSensor where
  lastError : Nat
  moisture : ℚ
  temperature : ℚ
  humidity : ℚ
  ph : ℚ
  ec : ℚ
  nitrogen : ℚ
  phosphorus : ℚ
  potassium : ℚ
  moistureCalibrationFactor : ℚ
  phCalibrationFactor : ℚ
  ecCalibrationFactor : ℚ
deriving DecidableEq, Repr

/-- Model of `ModbusSoilSensor::isWithinValidRange` once the range for the
parameter is known: `value >= min && value <= max`. -/
def isWithinValidRange (lo hi v : ℚ) : Bool :=
  decide (lo ≤ v) && decide (v ≤ hi)

/-- Reinterpretation of a 16-bit register as a signed value, modelling the
C++ `static_cast<int16_t>`. -/
def toSigned16 (r : Nat) : ℤ :=
  if r < 32768 then (r : ℤ) else (r : ℤ) - 65536

/-- Model of `ModbusSoilSensor::read` for an initialized sensor.
`transport` is the outcome of the single 8-register
`readHoldingRegisters(deviceAddress, REG_MOISTURE, 8, registerValues)` call.
On transport failure the fields are untouched and `lastError = 4`.  On
transport success every field is assigned its scaled value, and only then
are moisture, temperature, humidity and pH validated against the
constructor's default ranges; a validation failure sets `lastError = 5` and
returns false. -/
def soilRead (s : SoilSensor) (transport : Option (List Nat)) : SoilSensor × Bool :=
  match transport with
  | none => ({s with lastError := 4}, false)
  | some regs =>
    let rawMoisture : ℚ := (regs.getD 0 0 : ℚ) / 10
    let moisture := rawMoisture * s.moistureCalibrationFactor
    let temperature : ℚ := (toSigned16 (regs.getD 1 0) : ℚ) / 10
    let rawPh : ℚ := (regs.getD 2 0 : ℚ) / 10
    let ph := rawPh * s.phCalibrationFactor
    let rawEc : ℚ := (regs.getD 3 0 : ℚ)
    let ec := rawEc * s.ecCalibrationFactor
    let nitrogen : ℚ := (regs.getD 4 0 : ℚ)
    let phosphorus : ℚ := (regs.getD 5 0 : ℚ)
    let potassium : ℚ := (regs.getD 6 0 : ℚ)
    let humidity : ℚ := (regs.getD 7 0 : ℚ) / 10
    let s := {s with moisture := moisture, temperature := temperature,
                     humidity := humidity, ph := ph, ec := ec,
                     nitrogen := nitrogen, phosphorus := phosphorus,
                     potassium := potassium}
    if !(isWithinValidRange 0 100 s.moisture) ||
       !(isWithinValidRange (-40) 80 s.temperature) ||
       !(isWithinValidRange 0 100 s.humidity) ||
       !(isWithinValidRange 3 9 s.ph) then
      ({s with lastError := 5}, false)
    else
      ({s with lastError := 0}, true)

/-- Model of `ModbusSoilSensor::calibrateMoisture` for an initialized
sensor.  `raw` is the outcome of reading the single moisture register;
`persistOk` is the outcome of the best-effort
`writeHoldingRegister(REG_MOISTURE_CALIB, ...)`.  A persist failure sets
`lastError = 8` but keeps the locally stored factor and still returns
true. -/
def calibrateMoisture (s : SoilSensor) (raw : Option Nat) (referenceValue : ℚ)
    (persistOk : Bool) : SoilSensor × Bool :=
  match raw with
  | none => ({s with lastError := 6}, false)
  | some r =>
    let currentRawValue : ℚ := (r : ℚ) / 10
    if currentRawValue < 1 / 100 then
      ({s with lastError := 7}, false)
    else
      let s := {s with moistureCalibrationFactor := referenceValue / currentRawValue}
      if persistOk = false then ({s with lastError := 8}, true)
      else ({s with lastError := 0}, true)

/-! ### Watering controller: `WateringController`

The controller is modelled for an initialized instance whose pump pointer
is non-null and whose pump initialized successfully (the graceful-degraded
manual mode is not claim-relevant here).  `millis()` is the explicit `now`
parameter; the data-logging timer is omitted (it only feeds storage).
`moisture` passed to the decision pass models `soilSensor->getMoisture()`. -/

structure Pump where
  running : Bool
  startTime : Nat
  runDuration : Nat
  manualMode : Bool
deriving DecidableEq, Repr

/-- Model of `WaterPump::checkTimedRun`: a running timed pump whose elapsed
time reached `runDuration * 1000` milliseconds is stopped. -/
def checkTimedRun (p : Pump) (now : Nat) : Pump :=
  if p.running = true ∧ 0 < p.runDuration ∧ p.runDuration * 1000 ≤ now - p.startTime then
    {p with running := false, manualMode := false}
  else p

/-- Model of `WaterPump::stop` for an initialized pump: drive the pin low,
clear `running` and the manual-mode flag. -/
def pumpStop (p : Pump) : Pump :=
  {p with running := false, manualMode := false}

/-- Model of `WaterPump::start` for an initialized pump: indefinite run
from `now`, automatic mode. -/
def pumpStart (p : Pump) (now : Nat) : Pump :=
  {p with running := true, startTime := now, runDuration := 0, manualMode := false}

/-- Model of `WaterPump::runFor`: `0` delegates to `stop`; otherwise start
and then set the manual-mode flag and the run duration. -/
def pumpRunFor (p : Pump) (now seconds : Nat) : Pump :=
  if seconds = 0 then pumpStop p
  else {pumpStart p now with manualMode := true, runDuration := seconds}

structure WateringConfig where
  sensorReadInterval : Nat
  dataLogInterval : Nat
  minWateringInterval : Nat
  moistureThresholdLow : ℚ
  moistureThresholdHigh : ℚ
  wateringDuration : Nat
  wateringEnabled : Bool
deriving DecidableEq, Repr

structure Controller where
  wateringEnabled : Bool
  sensorReadInterval : Nat
  dataLogInterval : Nat
  minWateringInterval : Nat
  moistureThresholdLow : ℚ
  moistureThresholdHigh : ℚ
  wateringDuration : Nat
  lastWateringTime : Nat
  lastValidSensorTime : Nat
  lastSensorReadTime : Nat
  lastError : Nat
  newSensorDataAvailable : Bool
  pump : Pump
  storedConfig : Option WateringConfig
deriving DecidableEq, Repr

/-- The seven tunables serialized by `WateringController::saveConfiguration`. -/
def configOf (c : Controller) : WateringConfig :=
  ⟨c.sensorReadInterval, c.dataLogInterval, c.minWateringInterval,
   c.moistureThresholdLow, c.moistureThresholdHigh, c.wateringDuration,
   c.wateringEnabled⟩

/-- Model of `WateringController::saveConfiguration`: rewrite the whole
configuration blob under the fixed storage key. -/
def saveConfiguration (c : Controller) : Controller :=
  {c with storedConfig := some (configOf c)}

/-- Model of `WateringController::setMoistureThresholdLow`: accept and
persist only a value in `[0, 100]`; otherwise leave everything unchanged. -/
def setMoistureThresholdLow (c : Controller) (threshold : ℚ) : Controller :=
  if 0 ≤ threshold ∧ threshold ≤ 100 then
    saveConfiguration {c with moistureThresholdLow := threshold}
  else c

/-- Model of `WateringController::setMoistureThresholdHigh`: accept and
persist only a value in `[0, 100]`; otherwise leave everything unchanged. -/
def setMoistureThresholdHigh (c : Controller) (threshold : ℚ) : Controller :=
  if 0 ≤ threshold ∧ threshold ≤ 100 then
    saveConfiguration {c with moistureThresholdHigh := threshold}
  else c

/-- Model of `if (waterPump && waterPump->isRunning()) { waterPump->stop(); }`:
`isRunning` runs `checkTimedRun` before reporting, so callers pass the
already-checked pump. -/
def stopIfRunning (p : Pump) : Pump :=
  if p.running = true then pumpStop p else p

/-- Model of `WateringController::processReadings`, translated branch by
branch.  Each `waterPump->isRunning()` call runs `checkTimedRun` first,
exactly as in `WaterPump::isRunning`; within one pass all calls share the
same `millis()` instant `now`, and `checkTimedRun` is idempotent at a fixed
instant (`checkTimedRun_idem` below), so repeated `isRunning()` calls are
collapsed to a single `checkTimedRun c.pump now`.  The source assigns
`lastValidSensorTime = currentTime` before reading the moisture value, so
every branch below the staleness pre-check carries
`lastValidSensorTime := now`.  Returns the new controller state and the C++
return value (true exactly when a watering run was started). -/
def processReadings (c : Controller) (now : Nat) (moisture : ℚ) : Controller × Bool :=
  if 0 < c.lastValidSensorTime ∧ 30000 < now - c.lastValidSensorTime then
    ({c with pump := stopIfRunning (checkTimedRun c.pump now)}, false)
  else if moisture < 0 ∨ 100 < moisture then
    ({c with lastValidSensorTime := now,
             pump := stopIfRunning (checkTimedRun c.pump now)}, false)
  else if c.wateringEnabled = true ∧ (checkTimedRun c.pump now).running = false ∧
          moisture ≤ c.moistureThresholdLow then
    ({c with lastValidSensorTime := now, lastWateringTime := now,
             pump := pumpRunFor (checkTimedRun c.pump now) now c.wateringDuration}, true)
  else if (checkTimedRun c.pump now).running = true ∧ c.moistureThresholdHigh ≤ moisture then
    ({c with lastValidSensorTime := now,
             pump := pumpStop (checkTimedRun c.pump now)}, false)
  else
    ({c with lastValidSensorTime := now, pump := checkTimedRun c.pump now}, false)

/-- Model of the sensor-unavailable branch of `WateringController::update`:
emergency pump stop, staleness timestamp cleared to "never", error 7. -/
def sensorFailSafe (c : Controller) (now : Nat) : Controller :=
  {c with pump := stopIfRunning (checkTimedRun c.pump now),
          lastValidSensorTime := 0, lastError := 7}

/-- Model of the additional safety check at the end of
`WateringController::update`: on every iteration, a running pump is stopped
when the last-valid-sensor timestamp is unset or more than 30000 ms old. -/
def updateWatchdog (c : Controller) (now : Nat) : Controller :=
  if (checkTimedRun c.pump now).running = true ∧
     (c.lastValidSensorTime = 0 ∨ 30000 < now - c.lastValidSensorTime) then
    {c with pump := pumpStop (checkTimedRun c.pump now)}
  else
    {c with pump := checkTimedRun c.pump now}

/-- Model of `WateringController::update` for an initialized controller.
`mutexOk` models whether `xSemaphoreTake(sensorDataMutex, 10 ticks)`
succeeded, `sensorAvailable` models `soilSensor && soilSensor->isAvailable()`,
and `moisture` models `soilSensor->getMoisture()` for the decision pass.
The data-logging step touches only storage and is omitted. -/
def controllerUpdate (c : Controller) (now : Nat) (mutexOk sensorAvailable : Bool)
    (moisture : ℚ) : Controller :=
  let c0 := {c with pump := checkTimedRun c.pump now}
  let c1 :=
    if c0.newSensorDataAvailable = true ∧ mutexOk = true then
      let c2 :=
        if sensorAvailable = true then (processReadings c0 now moisture).1
        else sensorFailSafe c0 now
      {c2 with newSensorDataAvailable := false, lastSensorReadTime := now}
    else c0
  updateWatchdog c1 now

/-! ### Execution-context traces for the concurrency claim

Which execution context touches the Modbus transport is a static property
of the call structure, so it is modelled by the sequence of events each
code path emits: taking/giving the shared sensor-data mutex, performing a
serial (Modbus) transaction, and writing the shared flags. -/

inductive TaskEvent where
  | mutexTake
  | mutexGive
  | serialXfer
  | flagWrite
deriving DecidableEq, Repr

/-- Events of one foreground `WateringController::update` pass.
When new data is flagged and the mutex is acquired, the pass calls
`soilSensor->isAvailable()` inside the critical section, and for a present
sensor `ModbusSoilSensor::isAvailable` issues a
`readHoldingRegisters(deviceAddress, REG_MOISTURE, 1, nullptr)` probe
(`serialXfer`); `processReadings` itself only reads cached getters.  The
pass then clears the new-data flag and releases the mutex; the staleness
watchdog afterwards touches no shared sensor object. -/
def updateTrace (newData mutexOk soilPresent : Bool) : List TaskEvent :=
  if newData = true ∧ mutexOk = true then
    [TaskEvent.mutexTake] ++
    (if soilPresent then [TaskEvent.serialXfer] else []) ++
    [TaskEvent.flagWrite, TaskEvent.mutexGive]
  else []

/-- Events of one background `WateringController::sensorTask` iteration:
the sensor reads (`envSensor->read()`, `soilSensor->read()`, the latter a
Modbus transaction) happen before the critical section; the mutex-guarded
region only writes `sensorReadSuccess` and `newSensorDataAvailable`. -/
def sensorTaskTrace (soilPresent mutexOk : Bool) : List TaskEvent :=
  (if soilPresent then [TaskEvent.serialXfer] else []) ++
  (if mutexOk then [TaskEvent.mutexTake, TaskEvent.flagWrite, TaskEvent.mutexGive] else [])

/-- Whether a trace performs a serial transaction while the mutex is held;
`held` is the mutex state at the start of the trace. -/
def serialWhileMutexHeld : List TaskEvent → Bool → Bool
  | [], _ => false
  | TaskEvent.mutexTake :: rest, _ => serialWhileMutexHeld rest true
  | TaskEvent.mutexGive :: rest, _ => serialWhileMutexHeld rest false
  | TaskEvent.serialXfer :: rest, held => held || serialWhileMutexHeld rest held
  | TaskEvent.flagWrite :: rest, held => serialWhileMutexHeld rest held

/-! ### Helper lemmas -/

theorem crcRound_eq_specCrcRound : crcRound = specCrcRound := by
  funext c
  unfold crcRound specCrcRound
  rw [Nat.and_one_is_mod, Nat.shiftRight_one]
  rcases Nat.mod_two_eq_zero_or_one c with h | h <;> simp [h]

theorem decodeRegs_frame (devAddr fc bc : Nat) (data tail : List Nat) (count : Nat)
    (hdata : data.length = count * 2) (hbytes : ∀ b ∈ data, b < 256) :
    decodeRegs (devAddr :: fc :: bc :: (data ++ tail)) count = bigEndianRegs data count := by
  unfold decodeRegs bigEndianRegs
  apply List.map_congr_left
  intro i hi
  have hic : i < count := List.mem_range.mp hi
  have h1 : i * 2 < data.length := by omega
  have h2 : i * 2 + 1 < data.length := by omega
  have e1 : (devAddr :: fc :: bc :: (data ++ tail)).getD (3 + i * 2) 0 = data.getD (i * 2) 0 := by
    rw [show 3 + i * 2 = i * 2 + 1 + 1 + 1 by ring]
    simp only [List.getD_cons_succ]
    exact List.getD_append _ _ _ _ h1
  have e2 : (devAddr :: fc :: bc :: (data ++ tail)).getD (4 + i * 2) 0 =
      data.getD (i * 2 + 1) 0 := by
    rw [show 4 + i * 2 = i * 2 + 1 + 1 + 1 + 1 by ring]
    simp only [List.getD_cons_succ]
    exact List.getD_append _ _ _ _ h2
  have hb : data.getD (i * 2 + 1) 0 < 2 ^ 8 := by
    rw [List.getD_eq_getElem _ _ h2]
    have := hbytes _ (List.getElem_mem h2)
    omega
  rw [e1, e2, Nat.shiftLeft_eq, Nat.mul_comm]
  exact (Nat.mul_add_lt_is_or hb _).symm

/-! ### C3: the CRC engine matches the canonical Modbus CRC-16 reference -/

/-- C3: for every byte sequence, `calculateCRC` equals the canonical Modbus
CRC-16 reference: start value `0xFFFF`; per byte, XOR the byte into the low
byte of the running value, then 8 right-shift iterations, each XOR-ing
`0xA001` when the shifted-out bit was 1 (`modbusCRC16Spec`); the
empty-payload vector gives `0xFFFF`. -/
theorem crc_matches_modbus_reference :
    calculateCRC [] = 0xFFFF ∧ ∀ bs : List Nat, calculateCRC bs = modbusCRC16Spec bs := by
  refine ⟨rfl, fun bs => ?_⟩
  have h : crcByteStep = fun crc b => specCrcRound^[8] (crc ^^^ b) := by
    funext crc b
    unfold crcByteStep
    rw [crcRound_eq_specCrcRound]
  rw [calculateCRC, modbusCRC16Spec, h]

/-! ### C4: resynchronisation on leading garbage bytes -/

set_option maxRecDepth 4000 in
/-- C4 counterexample: the received bytes `[1, 3] ++ [1, 3, 2, 0, 5, 120, 71]`
contain a valid response frame for device 1, count 1 (register value 5,
CRC `0x4778 = 18296`, transmitted low byte first) preceded by exactly two
garbage bytes, yet the call fails with WrongByteCount (error 6), because
the scan locks onto the garbage bytes `[1, 3]` that mimic the
`[deviceAddress, 0x03]` header.  The same frame with no garbage succeeds
and yields register value 5, and its trailing bytes recombine to the CRC of
the frame body, so the frame is genuinely valid. -/
theorem resync_fooled_by_garbage_mimicking_header :
    (readHoldingRegisters true ⟨true, 0, 0, 0⟩ 1 1
        ([1, 3] ++ [1, 3, 2, 0, 5, 120, 71]) [0]).ok = false ∧
    (readHoldingRegisters true ⟨true, 0, 0, 0⟩ 1 1
        ([1, 3] ++ [1, 3, 2, 0, 5, 120, 71]) [0]).state.lastError = 6 ∧
    (readHoldingRegisters true ⟨true, 0, 0, 0⟩ 1 1
        [1, 3, 2, 0, 5, 120, 71] [0]).ok = true ∧
    (readHoldingRegisters true ⟨true, 0, 0, 0⟩ 1 1
        [1, 3, 2, 0, 5, 120, 71] [0]).buffer = [5] ∧
    71 <<< 8 ||| 120 = calculateCRC [1, 3, 2, 0, 5] := by
  refine ⟨?_, ?_, ?_, ?_, ?_⟩ <;> decide

theorem resync_success_helper (s : MbState) (devAddr count crcLo crcHi : Nat)
    (g data : List Nat) (buffer : List Nat)
    (hs : s.initialized = true) (hcount : count ≤ 125)
    (hg : g.length ≤ 2) (hdata : data.length = count * 2)
    (hbytes : ∀ b ∈ data, b < 256)
    (hcrc : crcHi <<< 8 ||| crcLo = calculateCRC (devAddr :: 3 :: count * 2 :: data))
    (hnoearly : ∀ i, i < g.length →
      ¬((g ++ devAddr :: 3 :: count * 2 :: (data ++ [crcLo, crcHi])).getD i 0 = devAddr ∧
        (g ++ devAddr :: 3 :: count * 2 :: (data ++ [crcLo, crcHi])).getD (i + 1) 0 = 3)) :
    readHoldingRegisters true s devAddr count
        (g ++ devAddr :: 3 :: count * 2 :: (data ++ [crcLo, crcHi])) buffer =
      ⟨true, {s with lastError := 0, successCount := s.successCount + 1},
        bigEndianRegs data count⟩ := by
  set frame := devAddr :: 3 :: count * 2 :: (data ++ [crcLo, crcHi]) with hframe
  have hflen : frame.length = 5 + count * 2 := by
    simp [hframe, hdata]
    omega
  have hrxlen : (g ++ frame).length = g.length + (5 + count * 2) := by
    simp [List.length_append, hflen]
  have htake : (g ++ frame).take (5 + count * 2 + 2) = g ++ frame :=
    List.take_of_length_le (by omega)
  have hmin : min (5 + count * 2 + 2) (g ++ frame).length = (g ++ frame).length := by omega
  have hdrop : (g ++ frame).drop g.length = frame := List.drop_left g frame
  have hsub : (g ++ frame).length - g.length = 5 + count * 2 := by omega
  have hfind : findOffset (g ++ frame) devAddr (g ++ frame).length = some g.length := by
    rcases g with _ | ⟨a, g⟩
    · unfold findOffset
      rw [if_pos ⟨by simp at hrxlen ⊢; omega, by simp [hframe], by simp [hframe]⟩]
      simp
    · rcases g with _ | ⟨b, g⟩
      · unfold findOffset
        rw [if_neg (fun hcond => hnoearly 0 (by simp) ⟨hcond.2.1, hcond.2.2⟩),
          if_pos ⟨by simp at hrxlen ⊢; omega, by simp [hframe], by simp [hframe]⟩]
        simp
      · rcases g with _ | ⟨x, g⟩
        · unfold findOffset
          rw [if_neg (fun hcond => hnoearly 0 (by simp) ⟨hcond.2.1, hcond.2.2⟩),
            if_neg (fun hcond => hnoearly 1 (by simp) ⟨hcond.2.1, hcond.2.2⟩),
            if_pos ⟨by simp at hrxlen ⊢; omega, by simp [hframe], by simp [hframe]⟩]
          simp
        · simp at hg
  have e_hi : frame.getD (5 + count * 2 - 1) 0 = crcHi := by
    rw [hframe, show 5 + count * 2 - 1 = count * 2 + 1 + 1 + 1 + 1 by omega]
    simp only [List.getD_cons_succ]
    rw [List.getD_append_right _ _ _ _ (by omega)]
    rw [hdata, show count * 2 + 1 - count * 2 = 1 by omega]
    rfl
  have e_lo : frame.getD (5 + count * 2 - 2) 0 = crcLo := by
    rw [hframe, show 5 + count * 2 - 2 = count * 2 + 1 + 1 + 1 by omega]
    simp only [List.getD_cons_succ]
    rw [List.getD_append_right _ _ _ _ (by omega)]
    rw [hdata, show count * 2 - count * 2 = 0 by omega]
    rfl
  have e_take : frame.take (5 + count * 2 - 2) = devAddr :: 3 :: count * 2 :: data := by
    rw [hframe, show 5 + count * 2 - 2 = count * 2 + 1 + 1 + 1 by omega]
    simp only [List.take_succ_cons]
    rw [← hdata, List.take_left]
  unfold readHoldingRegisters
  rw [hs]
  simp only [if_true]
  rw [if_neg (by simp), if_neg (by omega)]
  simp only [htake, hmin, hfind]
  simp only [hdrop, hsub]
  rw [if_neg (by omega)]
  rw [if_neg (by simp [hframe])]
  rw [if_neg (by simp [hframe])]
  rw [if_neg (by simp [hframe])]
  rw [e_hi, e_lo, e_take, ← hcrc]
  rw [if_neg (by simp)]
  rw [decodeRegs_frame devAddr 3 (count * 2) data [crcLo, crcHi] count hdata hbytes]
  simp [hs]

theorem resync_notfound_helper (s : MbState) (devAddr count : Nat) (rx buffer : List Nat)
    (hs : s.initialized = true) (hcount : count ≤ 125)
    (hnf : ∀ i, i < min (5 + count * 2 + 2) rx.length - 1 →
      ¬((rx.take (5 + count * 2 + 2)).getD i 0 = devAddr ∧
        (rx.take (5 + count * 2 + 2)).getD (i + 1) 0 = 3)) :
    readHoldingRegisters true s devAddr count rx buffer =
      ⟨false, {s with lastError := 4, errorCount := s.errorCount + 1}, buffer⟩ := by
  have hfind : findOffset (rx.take (5 + count * 2 + 2)) devAddr
      (min (5 + count * 2 + 2) rx.length) = none := by
    unfold findOffset
    rw [if_neg (fun hcond => hnf 0 (by have := hcond.1; omega) ⟨hcond.2.1, hcond.2.2⟩),
      if_neg (fun hcond => hnf 1 (by have := hcond.1; omega) ⟨hcond.2.1, hcond.2.2⟩),
      if_neg (fun hcond => hnf 2 (by have := hcond.1; omega) ⟨hcond.2.1, hcond.2.2⟩)]
  unfold readHoldingRegisters
  rw [hs]
  simp only [if_true]
  rw [if_neg (by simp), if_neg (by omega)]
  simp only [hfind]
  simp [hs]

/-- C4 (amended): the resynchronisation scan recovers a valid response frame
preceded by 0, 1 or 2 garbage bytes and the call succeeds with the correct
big-endian register values, PROVIDED the pattern `[deviceAddress, 0x03]`
does not already occur at an earlier offset inside the garbage (the
unamended claim fails there, see the counterexample); and whenever the
pattern is found nowhere among the received bytes the call fails with
WrongDeviceAddress (error 4). -/
theorem resync_discards_clean_garbage_prefix :
    (∀ (s : MbState) (devAddr count crcLo crcHi : Nat) (g data buffer : List Nat),
      s.initialized = true → count ≤ 125 → g.length ≤ 2 → data.length = count * 2 →
      (∀ b ∈ data, b < 256) →
      crcHi <<< 8 ||| crcLo = calculateCRC (devAddr :: 3 :: count * 2 :: data) →
      (∀ i, i < g.length →
        ¬((g ++ devAddr :: 3 :: count * 2 :: (data ++ [crcLo, crcHi])).getD i 0 = devAddr ∧
          (g ++ devAddr :: 3 :: count * 2 :: (data ++ [crcLo, crcHi])).getD (i + 1) 0 = 3)) →
      readHoldingRegisters true s devAddr count
          (g ++ devAddr :: 3 :: count * 2 :: (data ++ [crcLo, crcHi])) buffer =
        ⟨true, {s with lastError := 0, successCount := s.successCount + 1},
          bigEndianRegs data count⟩) ∧
    (∀ (s : MbState) (devAddr count : Nat) (rx buffer : List Nat),
      s.initialized = true → count ≤ 125 →
      (∀ i, i < min (5 + count * 2 + 2) rx.length - 1 →
        ¬((rx.take (5 + count * 2 + 2)).getD i 0 = devAddr ∧
          (rx.take (5 + count * 2 + 2)).getD (i + 1) 0 = 3)) →
      readHoldingRegisters true s devAddr count rx buffer =
        ⟨false, {s with lastError := 4, errorCount := s.errorCount + 1}, buffer⟩) :=
  ⟨fun s a c lo hi g d b h1 h2 h3 h4 h5 h6 h7 =>
      resync_success_helper s a c lo hi g d b h1 h2 h3 h4 h5 h6 h7,
   fun s a c rx b h1 h2 h3 => resync_notfound_helper s a c rx b h1 h2 h3⟩

set_option maxRecDepth 4000 in
/-- Witness for the amended C4 theorem: a frame for device 2, one register
of value 300 (`0x012C`), preceded by the single garbage byte 9, succeeds;
a reception containing no `[2, 0x03]` pattern fails with error 4. -/
theorem resync_discards_clean_garbage_prefix_witness :
    readHoldingRegisters true ⟨true, 0, 0, 0⟩ 2 1
        ([9] ++ 2 :: 3 :: 1 * 2 :: ([1, 44] ++ [252, 9])) [7] =
      ⟨true, ⟨true, 0, 1, 0⟩, [300]⟩ ∧
    readHoldingRegisters true ⟨true, 0, 0, 0⟩ 2 1 [7, 7, 7] [7] =
      ⟨false, ⟨true, 4, 0, 1⟩, [7]⟩ := by
  constructor
  · have h := resync_discards_clean_garbage_prefix.1 ⟨true, 0, 0, 0⟩ 2 1 252 9 [9] [1, 44] [7]
      rfl (by omega) (by decide) (by decide) (by decide) (by decide) (by decide)
    simpa using h
  · have h := resync_discards_clean_garbage_prefix.2 ⟨true, 0, 0, 0⟩ 2 1 [7, 7, 7] [7]
      rfl (by omega) (by decide)
    simpa using h

/-! ### C5: success and failure frame effects of `readHoldingRegisters` -/

set_option maxHeartbeats 1000000 in
/-- C5: on success `readHoldingRegisters` decodes `count` registers from the
offset-corrected response into the output buffer, increments the success
counter, clears the last error; every failure path increments the error
counter, sets a nonzero last-error code, and leaves the output buffer
unmodified. -/
theorem read_holding_registers_frame_effects (sp : Bool) (s : MbState)
    (devAddr count : Nat) (rx buffer : List Nat) :
    ((readHoldingRegisters sp s devAddr count rx buffer).ok = true →
      (readHoldingRegisters sp s devAddr count rx buffer).state.lastError = 0 ∧
      (readHoldingRegisters sp s devAddr count rx buffer).state.successCount =
        s.successCount + 1 ∧
      (readHoldingRegisters sp s devAddr count rx buffer).state.errorCount = s.errorCount ∧
      ∃ k, findOffset (rx.take (5 + count * 2 + 2)) devAddr
            (min (5 + count * 2 + 2) rx.length) = some k ∧
        (readHoldingRegisters sp s devAddr count rx buffer).buffer =
          decodeRegs ((rx.take (5 + count * 2 + 2)).drop k) count) ∧
    ((readHoldingRegisters sp s devAddr count rx buffer).ok = false →
      (readHoldingRegisters sp s devAddr count rx buffer).state.errorCount =
        s.errorCount + 1 ∧
      (readHoldingRegisters sp s devAddr count rx buffer).state.successCount =
        s.successCount ∧
      (readHoldingRegisters sp s devAddr count rx buffer).state.lastError ≠ 0 ∧
      (readHoldingRegisters sp s devAddr count rx buffer).buffer = buffer) := by
  generalize hr : readHoldingRegisters sp s devAddr count rx buffer = r
  simp only [readHoldingRegisters, mbInitialize] at hr
  repeat' split at hr
  all_goals subst hr
  all_goals simp_all

set_option maxRecDepth 4000 in
/-- Witness for C5: a successful one-register read (success counter
incremented, error cleared, buffer decoded) and a count-limit violation
(error counter incremented, nonzero error code, buffer untouched). -/
theorem read_holding_registers_frame_effects_witness :
    ((readHoldingRegisters true ⟨true, 0, 0, 0⟩ 1 1
        [1, 3, 2, 0, 5, 120, 71] [9]).state.lastError = 0 ∧
      (readHoldingRegisters true ⟨true, 0, 0, 0⟩ 1 1
        [1, 3, 2, 0, 5, 120, 71] [9]).state.successCount = 0 + 1 ∧
      (readHoldingRegisters true ⟨true, 0, 0, 0⟩ 1 1
        [1, 3, 2, 0, 5, 120, 71] [9]).state.errorCount = 0 ∧
      ∃ k, findOffset (List.take (5 + 1 * 2 + 2) [1, 3, 2, 0, 5, 120, 71]) 1
            (min (5 + 1 * 2 + 2) (List.length [1, 3, 2, 0, 5, 120, 71])) = some k ∧
        (readHoldingRegisters true ⟨true, 0, 0, 0⟩ 1 1
          [1, 3, 2, 0, 5, 120, 71] [9]).buffer =
          decodeRegs ((List.take (5 + 1 * 2 + 2) [1, 3, 2, 0, 5, 120, 71]).drop k) 1) ∧
    ((readHoldingRegisters true ⟨true, 0, 0, 0⟩ 1 126 [] [9]).state.errorCount = 0 + 1 ∧
      (readHoldingRegisters true ⟨true, 0, 0, 0⟩ 1 126 [] [9]).state.successCount = 0 ∧
      (readHoldingRegisters true ⟨true, 0, 0, 0⟩ 1 126 [] [9]).state.lastError ≠ 0 ∧
      (readHoldingRegisters true ⟨true, 0, 0, 0⟩ 1 126 [] [9]).buffer = [9]) :=
  ⟨(read_holding_registers_frame_effects true ⟨true, 0, 0, 0⟩ 1 1
      [1, 3, 2, 0, 5, 120, 71] [9]).1 (by decide),
   (read_holding_registers_frame_effects true ⟨true, 0, 0, 0⟩ 1 126 [] [9]).2 (by decide)⟩

/-! ### Controller helper lemmas -/

theorem checkTimedRun_idem (p : Pump) (now : Nat) :
    checkTimedRun (checkTimedRun p now) now = checkTimedRun p now := by
  unfold checkTimedRun
  split
  · rw [if_neg]
    simp
  · rfl

theorem updateWatchdog_safe (c : Controller) (now : Nat) :
    (updateWatchdog c now).pump.running = true →
    (updateWatchdog c now).lastValidSensorTime ≠ 0 ∧
      now - (updateWatchdog c now).lastValidSensorTime ≤ 30000 := by
  unfold updateWatchdog
  split
  · intro h
    exact Bool.noConfusion (show false = true from h)
  · next hcond =>
    intro h
    have h' : (checkTimedRun c.pump now).running = true := h
    have hnb : ¬(c.lastValidSensorTime = 0 ∨ 30000 < now - c.lastValidSensorTime) :=
      fun hbc => hcond ⟨h', hbc⟩
    push_neg at hnb
    show c.lastValidSensorTime ≠ 0 ∧ now - c.lastValidSensorTime ≤ 30000
    exact ⟨hnb.1, by omega⟩

theorem updateWatchdog_stops_on_stale (c : Controller) (now : Nat)
    (hstale : c.lastValidSensorTime = 0 ∨ 30000 < now - c.lastValidSensorTime) :
    (updateWatchdog c now).pump.running = false := by
  unfold updateWatchdog
  split
  · rfl
  · next hcond =>
    show (checkTimedRun c.pump now).running = false
    rcases Bool.eq_false_or_eq_true (checkTimedRun c.pump now).running with h | h
    · exact absurd ⟨h, hstale⟩ hcond
    · exact h

/-! ### C1: automatic start is gated only by enable, pump-idle and low threshold -/

/-- C1: in a decision pass that reaches the threshold evaluation (the
staleness pre-check passes) with an in-range moisture value, the pump is
commanded to start exactly when watering is enabled AND the pump is not
already running AND `moisture ≤ thresholdLow` — the theorem quantifies over
every `lastWateringTime` and `minWateringInterval` with no hypothesis on
them, so no minimum-interval condition gates the start; on start the pump
is commanded with `runFor(wateringDuration)` and `lastWateringTime` is set
to now. -/
theorem auto_start_gated_only_by_enable_idle_threshold
    (c : Controller) (now : Nat) (moisture : ℚ)
    (hfresh : ¬(0 < c.lastValidSensorTime ∧ 30000 < now - c.lastValidSensorTime))
    (hlo : 0 ≤ moisture) (hhi : moisture ≤ 100) :
    ((processReadings c now moisture).2 = true ↔
      (c.wateringEnabled = true ∧ (checkTimedRun c.pump now).running = false ∧
        moisture ≤ c.moistureThresholdLow)) ∧
    ((processReadings c now moisture).2 = true →
      (processReadings c now moisture).1.pump =
        pumpRunFor (checkTimedRun c.pump now) now c.wateringDuration ∧
      (processReadings c now moisture).1.lastWateringTime = now) := by
  unfold processReadings
  rw [if_neg hfresh, if_neg (by push_neg; exact ⟨hlo, hhi⟩)]
  by_cases hstart : c.wateringEnabled = true ∧ (checkTimedRun c.pump now).running = false ∧
      moisture ≤ c.moistureThresholdLow
  · rw [if_pos hstart]
    simp [hstart]
  · rw [if_neg hstart]
    split <;> simp [hstart]

/-- Witness for C1 at the spec's threshold scenario 1: moisture 25,
thresholds 30/55, watering enabled, pump idle, `minWateringInterval = 300`
and `lastWateringTime = 0` irrelevant: the pump starts for 20 s and
`lastWateringTime` is updated. -/
theorem auto_start_gated_only_by_enable_idle_threshold_witness :
    (processReadings
        ⟨true, 5000, 300000, 300, 30, 55, 20, 0, 0, 0, 0, true, ⟨false, 0, 0, false⟩, none⟩
        1000 25).2 = true ∧
    (processReadings
        ⟨true, 5000, 300000, 300, 30, 55, 20, 0, 0, 0, 0, true, ⟨false, 0, 0, false⟩, none⟩
        1000 25).1.lastWateringTime = 1000 ∧
    (processReadings
        ⟨true, 5000, 300000, 300, 30, 55, 20, 0, 0, 0, 0, true, ⟨false, 0, 0, false⟩, none⟩
        1000 25).1.pump.running = true := by
  have h := auto_start_gated_only_by_enable_idle_threshold
    ⟨true, 5000, 300000, 300, 30, 55, 20, 0, 0, 0, 0, true, ⟨false, 0, 0, false⟩, none⟩
    1000 25 (by decide) (by decide) (by decide)
  have h2 := h.1.mpr (by refine ⟨rfl, by decide, by decide⟩)
  refine ⟨h2, (h.2 h2).2, ?_⟩
  rw [(h.2 h2).1]
  decide

/-! ### C2: the staleness watchdog in `update` -/

/-- C2: on every invocation of `update`, whenever the pump would still be
running afterwards, the last-valid-sensor timestamp is set and at most 30 s
old — equivalently, the watchdog stops the pump whenever the timestamp is
unset (0) or older than 30 s at the check; and in the background-task-dead
scenario (no new-data flag, or the mutex not acquired, so the decision pass
never runs) a running pump with an unset or stale timestamp is always
stopped.  The first conjunct holds for every value of the new-data flag and
of `mutexOk`, so the check does not depend on them. -/
theorem staleness_watchdog_stops_pump (c : Controller) (now : Nat)
    (mutexOk sensorAvailable : Bool) (moisture : ℚ) :
    ((controllerUpdate c now mutexOk sensorAvailable moisture).pump.running = true →
      (controllerUpdate c now mutexOk sensorAvailable moisture).lastValidSensorTime ≠ 0 ∧
      now - (controllerUpdate c now mutexOk sensorAvailable moisture).lastValidSensorTime
        ≤ 30000) ∧
    ((c.newSensorDataAvailable = false ∨ mutexOk = false) →
      (c.lastValidSensorTime = 0 ∨ 30000 < now - c.lastValidSensorTime) →
      (controllerUpdate c now mutexOk sensorAvailable moisture).pump.running = false) := by
  constructor
  · simp only [controllerUpdate]
    exact updateWatchdog_safe _ now
  · intro hflag hstale
    simp only [controllerUpdate]
    rw [if_neg (by
      intro hcond
      rcases hflag with h | h <;> simp_all)]
    exact updateWatchdog_stops_on_stale _ now hstale

/-- Witness for C2: a pump running since 1000 ms with the timestamp unset
and the new-data flag clear is stopped by the watchdog at 40000 ms. -/
theorem staleness_watchdog_stops_pump_witness :
    (controllerUpdate
        ⟨true, 5000, 300000, 300, 30, 55, 20, 0, 0, 0, 0, false, ⟨true, 1000, 0, false⟩, none⟩
        40000 true true 50).pump.running = false :=
  (staleness_watchdog_stops_pump
      ⟨true, 5000, 300000, 300, 30, 55, 20, 0, 0, 0, 0, false, ⟨true, 1000, 0, false⟩, none⟩
      40000 true true 50).2 (Or.inl rfl) (Or.inl rfl)

/-! ### C7: timestamp refresh versus moisture validation in `processReadings` -/

/-- C7 counterexample: in a pass that reaches the threshold evaluation with
an out-of-range moisture of 150, the evaluation aborts (returns false) as
the claim says — but the staleness timestamp HAS been refreshed to `now`
(5000) even though it was 0 before, and no error is recorded
(`lastError` stays 0): the source assigns `lastValidSensorTime =
currentTime` before validating the moisture value and the invalid branch
sets no error code. -/
theorem invalid_moisture_still_refreshes_timestamp :
    (processReadings
        ⟨true, 5000, 300000, 300, 30, 55, 20, 0, 0, 0, 0, true, ⟨false, 0, 0, false⟩, none⟩
        5000 150).2 = false ∧
    (processReadings
        ⟨true, 5000, 300000, 300, 30, 55, 20, 0, 0, 0, 0, true, ⟨false, 0, 0, false⟩, none⟩
        5000 150).1.lastValidSensorTime = 5000 ∧
    (⟨true, 5000, 300000, 300, 30, 55, 20, 0, 0, 0, 0, true, ⟨false, 0, 0, false⟩, none⟩
        : Controller).lastValidSensorTime = 0 ∧
    (processReadings
        ⟨true, 5000, 300000, 300, 30, 55, 20, 0, 0, 0, 0, true, ⟨false, 0, 0, false⟩, none⟩
        5000 150).1.lastError = 0 := by
  refine ⟨?_, ?_, ?_, ?_⟩ <;> decide

/-- C7 (amended): whenever the staleness pre-check passes, the timestamp is
refreshed to `now` BEFORE the moisture value is examined; an out-of-range
moisture then stops a running pump and aborts without acting — but with the
timestamp already refreshed and with no error code recorded (`lastError`
unchanged). -/
theorem invalid_moisture_aborts_after_timestamp_refresh
    (c : Controller) (now : Nat) (moisture : ℚ)
    (hfresh : ¬(0 < c.lastValidSensorTime ∧ 30000 < now - c.lastValidSensorTime))
    (hbad : moisture < 0 ∨ 100 < moisture) :
    (processReadings c now moisture).2 = false ∧
    (processReadings c now moisture).1.lastValidSensorTime = now ∧
    (processReadings c now moisture).1.lastError = c.lastError ∧
    (processReadings c now moisture).1.lastWateringTime = c.lastWateringTime ∧
    (processReadings c now moisture).1.pump = stopIfRunning (checkTimedRun c.pump now) := by
  unfold processReadings
  rw [if_neg hfresh, if_pos hbad]
  exact ⟨rfl, rfl, rfl, rfl, rfl⟩

/-- Witness for the amended C7 theorem: a running pump, fresh timestamp
1000, moisture 150 at `now = 2000`: the pass stops the pump, refreshes the
timestamp to 2000 and leaves `lastError` at its previous value 9. -/
theorem invalid_moisture_aborts_after_timestamp_refresh_witness :
    (processReadings
        ⟨true, 5000, 300000, 300, 30, 55, 20, 0, 1000, 0, 9, true, ⟨true, 500, 0, false⟩, none⟩
        2000 150).2 = false ∧
    (processReadings
        ⟨true, 5000, 300000, 300, 30, 55, 20, 0, 1000, 0, 9, true, ⟨true, 500, 0, false⟩, none⟩
        2000 150).1.lastValidSensorTime = 2000 ∧
    (processReadings
        ⟨true, 5000, 300000, 300, 30, 55, 20, 0, 1000, 0, 9, true, ⟨true, 500, 0, false⟩, none⟩
        2000 150).1.lastError = 9 := by
  have h := invalid_moisture_aborts_after_timestamp_refresh
    ⟨true, 5000, 300000, 300, 30, 55, 20, 0, 1000, 0, 9, true, ⟨true, 500, 0, false⟩, none⟩
    2000 150 (by decide) (by decide)
  exact ⟨h.1, h.2.1, h.2.2.1⟩

/-! ### C8: the threshold setters validate and reject, they do not clamp -/

/-- C8 counterexample: with the stored low threshold at 30,
`setMoistureThresholdLow(150)` leaves the threshold at 30 and persists
nothing, whereas clamping 150 into `[0, 100]` would store 100: the setters
validate and REJECT out-of-range input instead of clamping it. -/
theorem threshold_setter_rejects_not_clamps :
    (setMoistureThresholdLow
        ⟨true, 5000, 300000, 300, 30, 55, 20, 0, 0, 0, 0, false, ⟨false, 0, 0, false⟩, none⟩
        150).moistureThresholdLow = 30 ∧
    min (max (150 : ℚ) 0) 100 = 100 ∧
    (30 : ℚ) ≠ 100 ∧
    (setMoistureThresholdLow
        ⟨true, 5000, 300000, 300, 30, 55, 20, 0, 0, 0, 0, false, ⟨false, 0, 0, false⟩, none⟩
        150).storedConfig = none := by
  refine ⟨?_, ?_, ?_, ?_⟩ <;> decide

/-- C8 (amended): each threshold setter independently validates its input
against `[0, 100]`: an in-range value is stored and the full seven-field
configuration blob is persisted; an out-of-range value leaves the
controller (stored threshold and persisted blob included) completely
unchanged — no clamping takes place. -/
theorem threshold_setters_validate_and_persist (c : Controller) (t : ℚ) :
    ((0 ≤ t ∧ t ≤ 100) →
      (setMoistureThresholdLow c t).moistureThresholdLow = t ∧
      (setMoistureThresholdLow c t).storedConfig =
        some (configOf {c with moistureThresholdLow := t}) ∧
      (setMoistureThresholdHigh c t).moistureThresholdHigh = t ∧
      (setMoistureThresholdHigh c t).storedConfig =
        some (configOf {c with moistureThresholdHigh := t})) ∧
    (¬(0 ≤ t ∧ t ≤ 100) →
      setMoistureThresholdLow c t = c ∧ setMoistureThresholdHigh c t = c) := by
  constructor
  · intro h
    unfold setMoistureThresholdLow setMoistureThresholdHigh saveConfiguration
    rw [if_pos h, if_pos h]
    exact ⟨rfl, rfl, rfl, rfl⟩
  · intro h
    unfold setMoistureThresholdLow setMoistureThresholdHigh
    rw [if_neg h, if_neg h]
    exact ⟨rfl, rfl⟩

/-- Witness for the amended C8 theorem: 42 is accepted and persisted by
both setters; 150 is rejected by both, leaving the controller unchanged. -/
theorem threshold_setters_validate_and_persist_witness :
    (setMoistureThresholdLow
        ⟨true, 5000, 300000, 300, 30, 55, 20, 0, 0, 0, 0, false, ⟨false, 0, 0, false⟩, none⟩
        42).moistureThresholdLow = 42 ∧
    (setMoistureThresholdLow
        ⟨true, 5000, 300000, 300, 30, 55, 20, 0, 0, 0, 0, false, ⟨false, 0, 0, false⟩, none⟩
        42).storedConfig = some ⟨5000, 300000, 300, 42, 55, 20, true⟩ ∧
    setMoistureThresholdHigh
        ⟨true, 5000, 300000, 300, 30, 55, 20, 0, 0, 0, 0, false, ⟨false, 0, 0, false⟩, none⟩
        150 =
      ⟨true, 5000, 300000, 300, 30, 55, 20, 0, 0, 0, 0, false, ⟨false, 0, 0, false⟩, none⟩ := by
  have h1 := (threshold_setters_validate_and_persist
    ⟨true, 5000, 300000, 300, 30, 55, 20, 0, 0, 0, 0, false, ⟨false, 0, 0, false⟩, none⟩
    42).1 (by decide)
  have h2 := (threshold_setters_validate_and_persist
    ⟨true, 5000, 300000, 300, 30, 55, 20, 0, 0, 0, 0, false, ⟨false, 0, 0, false⟩, none⟩
    150).2 (by decide)
  exact ⟨h1.1, h1.2.1, h2.2⟩

/-! ### C6: snapshot visibility after a failed read -/

/-- C6 counterexample: a sensor whose last good snapshot had moisture 50
performs a read whose registers scale to moisture 200 (out of `[0, 100]`):
the read reports failure with `InvalidReadingValues` (error 5), yet
`getMoisture` afterwards returns 200, not the pre-read value 50 — the
rejected snapshot IS visible to consumers, because the source assigns all
fields before validating them. -/
theorem rejected_snapshot_visible_to_getters :
    (soilRead ⟨0, 50, 20, 60, 7, 100, 1, 2, 3, 1, 1, 1⟩
        (some [2000, 250, 70, 1000, 10, 20, 30, 600])).2 = false ∧
    (soilRead ⟨0, 50, 20, 60, 7, 100, 1, 2, 3, 1, 1, 1⟩
        (some [2000, 250, 70, 1000, 10, 20, 30, 600])).1.lastError = 5 ∧
    (soilRead ⟨0, 50, 20, 60, 7, 100, 1, 2, 3, 1, 1, 1⟩
        (some [2000, 250, 70, 1000, 10, 20, 30, 600])).1.moisture = 200 ∧
    (⟨0, 50, 20, 60, 7, 100, 1, 2, 3, 1, 1, 1⟩ : SoilSensor).moisture = 50 := by
  refine ⟨?_, ?_, ?_, ?_⟩ <;>
    norm_num [soilRead, isWithinValidRange, toSigned16]

/-- C6 (amended): a transport-level failure discards the snapshot — every
reading field is left exactly as before, only `lastError` is set to 4; a
wire-successful read, however, overwrites every reading field BEFORE range
validation, so the post-read snapshot (and the returned flag) is fully
determined by the new register block and the calibration factors,
independent of the previous field values — a range-validation failure
(`InvalidReadingValues`) does not restore the previous snapshot. -/
theorem snapshot_discarded_only_on_transport_failure :
    (∀ s : SoilSensor, soilRead s none = ({s with lastError := 4}, false)) ∧
    (∀ (s₁ s₂ : SoilSensor) (regs : List Nat),
      s₁.moistureCalibrationFactor = s₂.moistureCalibrationFactor →
      s₁.phCalibrationFactor = s₂.phCalibrationFactor →
      s₁.ecCalibrationFactor = s₂.ecCalibrationFactor →
      soilRead s₁ (some regs) = soilRead s₂ (some regs)) := by
  constructor
  · intro s
    rfl
  · intro s₁ s₂ regs h1 h2 h3
    rcases s₁ with ⟨e₁, m₁, t₁, hu₁, p₁, ec₁, n₁, ph₁, k₁, f₁, g₁, q₁⟩
    rcases s₂ with ⟨e₂, m₂, t₂, hu₂, p₂, ec₂, n₂, ph₂, k₂, f₂, g₂, q₂⟩
    simp only at h1 h2 h3
    subst h1
    subst h2
    subst h3
    rfl

/-- Witness for the amended C6 theorem: two sensors with identical
calibration factors but entirely different previous snapshots produce the
same result on the same register block; a transport failure only sets
error 4. -/
theorem snapshot_discarded_only_on_transport_failure_witness :
    soilRead ⟨0, 50, 20, 60, 7, 100, 1, 2, 3, 1, 1, 1⟩
        (some [2000, 250, 70, 1000, 10, 20, 30, 600]) =
      soilRead ⟨9, 1, 2, 3, 4, 5, 6, 7, 8, 1, 1, 1⟩
        (some [2000, 250, 70, 1000, 10, 20, 30, 600]) ∧
    soilRead ⟨9, 1, 2, 3, 4, 5, 6, 7, 8, 1, 1, 1⟩ none =
      (⟨4, 1, 2, 3, 4, 5, 6, 7, 8, 1, 1, 1⟩, false) :=
  ⟨snapshot_discarded_only_on_transport_failure.2
      ⟨0, 50, 20, 60, 7, 100, 1, 2, 3, 1, 1, 1⟩
      ⟨9, 1, 2, 3, 4, 5, 6, 7, 8, 1, 1, 1⟩
      [2000, 250, 70, 1000, 10, 20, 30, 600] rfl rfl rfl,
   snapshot_discarded_only_on_transport_failure.1 ⟨9, 1, 2, 3, 4, 5, 6, 7, 8, 1, 1, 1⟩⟩

/-! ### C9: moisture calibration -/

/-- Helper: after a wire-successful read the moisture field always carries
the scaled, calibrated value of register 0. -/
theorem soilRead_moisture_field (s : SoilSensor) (regs : List Nat) :
    (soilRead s (some regs)).1.moisture =
      (regs.getD 0 0 : ℚ) / 10 * s.moistureCalibrationFactor := by
  simp only [soilRead]
  split <;> rfl

/-- C9 counterexample: for raw register value `R = 100` (scaled raw 10) and
reference `V = 30`, `calibrateMoisture` stores the factor
`V / (R/10) = 3`, not `V / R = 3/10` as the claim states. -/
theorem calibration_factor_not_v_over_r :
    (calibrateMoisture ⟨0, 50, 20, 60, 7, 100, 1, 2, 3, 1, 1, 1⟩
        (some 100) 30 true).2 = true ∧
    (calibrateMoisture ⟨0, 50, 20, 60, 7, 100, 1, 2, 3, 1, 1, 1⟩
        (some 100) 30 true).1.moistureCalibrationFactor = 3 ∧
    (30 : ℚ) / 100 ≠ 3 := by
  refine ⟨?_, ?_, ?_⟩ <;> norm_num [calibrateMoisture]

/-- C9 (amended): for every raw register value `R` whose scaled raw value
`R/10` passes the near-zero guard (`¬(R/10 < 0.01)`) and every reference
`V`: `calibrateMoisture(V)` succeeds, stores the factor `V / (R/10)`
(which is `10·V/R`, not `V/R`), a subsequent read of the same raw register
value `R` yields moisture exactly `V`, and a failure to persist the factor
to the sensor-side register affects neither the locally stored factor nor
the returned value. -/
theorem calibrate_moisture_stores_ratio_to_scaled_raw
    (s : SoilSensor) (r : Nat) (v : ℚ) (persistOk : Bool)
    (hr : ¬((r : ℚ) / 10 < 1 / 100)) :
    (calibrateMoisture s (some r) v persistOk).2 = true ∧
    (calibrateMoisture s (some r) v persistOk).1.moistureCalibrationFactor =
      v / ((r : ℚ) / 10) ∧
    (∀ tl : List Nat,
      (soilRead (calibrateMoisture s (some r) v persistOk).1 (some (r :: tl))).1.moisture
        = v) ∧
    (calibrateMoisture s (some r) v false).1.moistureCalibrationFactor =
      (calibrateMoisture s (some r) v true).1.moistureCalibrationFactor ∧
    (calibrateMoisture s (some r) v false).2 = true := by
  have hne : ((r : ℚ) / 10) ≠ 0 := by
    intro h0
    rw [h0] at hr
    norm_num at hr
  have hr' : ¬(r : ℚ) / 10 < 100⁻¹ := by simpa [one_div] using hr
  have hfac : (calibrateMoisture s (some r) v persistOk).1.moistureCalibrationFactor =
      v / ((r : ℚ) / 10) := by
    cases persistOk <;> simp [calibrateMoisture, hr']
  refine ⟨?_, hfac, ?_, ?_, ?_⟩
  · cases persistOk <;> simp [calibrateMoisture, hr']
  · intro tl
    rw [soilRead_moisture_field, hfac]
    show (r : ℚ) / 10 * (v / ((r : ℚ) / 10)) = v
    rw [mul_comm]
    exact div_mul_cancel₀ v hne
  · simp [calibrateMoisture, hr']
  · simp [calibrateMoisture, hr']

/-- Witness for the amended C9 theorem at `R = 100`, `V = 30`, with the
sensor-side persist failing: the call still returns true, the stored
factor is 3, and reading raw 100 back yields moisture 30. -/
theorem calibrate_moisture_stores_ratio_to_scaled_raw_witness :
    (calibrateMoisture ⟨0, 50, 20, 60, 7, 100, 1, 2, 3, 1, 1, 1⟩
        (some 100) 30 false).2 = true ∧
    (calibrateMoisture ⟨0, 50, 20, 60, 7, 100, 1, 2, 3, 1, 1, 1⟩
        (some 100) 30 false).1.moistureCalibrationFactor = 3 ∧
    (soilRead (calibrateMoisture ⟨0, 50, 20, 60, 7, 100, 1, 2, 3, 1, 1, 1⟩
        (some 100) 30 false).1 (some (100 :: [250]))).1.moisture = 30 := by
  have h := calibrate_moisture_stores_ratio_to_scaled_raw
    ⟨0, 50, 20, 60, 7, 100, 1, 2, 3, 1, 1, 1⟩ 100 30 false (by norm_num)
  refine ⟨h.1, ?_, h.2.2.1 [250]⟩
  rw [h.2.1]
  norm_num

/-! ### C10: which execution context touches the Modbus transport -/

/-- C10 counterexample: in the foreground `update` pass with new data
flagged, the mutex acquired and the soil sensor present, the emitted event
trace is take-mutex, Modbus transaction, flag write, give-mutex — a serial
(Modbus) transaction is performed from the foreground control loop while
the shared sensor-data mutex is held, contradicting the claim that the
transport is only ever touched from the background task and that no code
path performs serial I/O under the mutex. -/
theorem foreground_modbus_probe_under_mutex :
    updateTrace true true true =
      [TaskEvent.mutexTake, TaskEvent.serialXfer, TaskEvent.flagWrite,
        TaskEvent.mutexGive] ∧
    serialWhileMutexHeld (updateTrace true true true) false = true := by
  refine ⟨?_, ?_⟩ <;> decide

/-- C10 (amended): the background sensor task never performs serial I/O
while holding the mutex (its Modbus reads precede its critical section);
the foreground `update` pass, however, performs exactly one Modbus
transaction (the `isAvailable` probe) inside the mutex-held region whenever
new data is flagged, the mutex is acquired and the soil sensor is present —
and touches the transport not at all when the decision pass is skipped. -/
theorem serial_io_confined_except_foreground_probe :
    (∀ soilPresent mutexOk : Bool,
      serialWhileMutexHeld (sensorTaskTrace soilPresent mutexOk) false = false) ∧
    (∀ soilPresent : Bool,
      serialWhileMutexHeld (updateTrace true true soilPresent) false = soilPresent) ∧
    (∀ newData mutexOk soilPresent : Bool, ¬(newData = true ∧ mutexOk = true) →
      updateTrace newData mutexOk soilPresent = []) := by
  refine ⟨?_, ?_, ?_⟩ <;> decide

/-- Witness for the amended C10 theorem: a skipped pass emits no events,
and one background iteration does its Modbus read outside the lock. -/
theorem serial_io_confined_except_foreground_probe_witness :
    updateTrace false true true = [] ∧
    serialWhileMutexHeld (sensorTaskTrace true true) false = false :=
  ⟨serial_io_confined_except_foreground_probe.2.2 false true true (by decide),
   serial_io_confined_except_foreground_probe.1 true true⟩

end WateringSystem
